import Mathlib

/-!
Verification development for the Auto-Taking-Camera gesture kiosk.

The repository is TypeScript; this file is a shallow embedding of the core
logic into Lean 4:

* times are rational milliseconds (`Date.now()` yields integer ms, frame
  deltas are differences of such integers; we use `ℚ` so that the progress
  quotient `accumulated / 3000` is exact);
* normalized screen coordinates are rationals; every comparison the source
  performs between `Math.hypot` values and nonnegative thresholds is embedded
  as the equivalent comparison of squared values (`a > b ↔ a^2 > b^2` for
  nonnegative reals), which keeps all definitions executable without square
  roots;
* JavaScript `Map` objects keyed by strings `hand-${id}-${name}` /
  `temp-${index}` are embedded as association lists keyed by an inductive
  key type (the string format is injective on `(id, name)` since gesture
  names contain no digits after a hyphen);
* the ambient `window.lastTriggeredGesture : string | null` (possibly also
  `undefined` before first assignment) is embedded as `Option String`;
  `null` and `undefined` collapse to `none`, which is faithful for every
  use site (`=== name` is false for both, both are falsy);
* fallible JavaScript (reading a property of `undefined` throws a
  `TypeError`) is embedded with `Except String`.
-/

namespace AutoCam

/-! ## Constants (src `constants.ts`, `gestureService` variants) -/

/-- `GESTURE_HOLD_DURATION_MS = 3000` (constants.ts line 1). -/
def GESTURE_HOLD_DURATION_MS : ℚ := 3000

/-- `COUNTDOWN_DURATION_SEC = 3` (constants.ts line 2). -/
def COUNTDOWN_DURATION_SEC : Nat := 3

/-- `MAX_PHOTOS = 3` (constants.ts line 3). -/
def MAX_PHOTOS : Nat := 3

/-- Squared form of `HAND_MATCH_THRESHOLD = 0.15` (part_005 line 36):
the source compares `Math.hypot dx dy < 0.15`; we compare squared
distances against `0.15^2 = 9/400`. -/
def HAND_MATCH_THRESHOLD_SQ : ℚ := 9/400

/-- `HAND_TIMEOUT_MS = 500` (part_005 line 37). -/
def HAND_TIMEOUT_MS : ℚ := 500

/-! ## Hold accumulator (src/components/GestureCanvas.tsx, `animate`)

The accumulator body of `animate` (lines 56-119) processes the array
returned by `detectGestureInVideo`: one `Map` keyed by
`hand-${id}-${name}` (or `temp-${index}` when `result.id` is falsy)
holding `{ time, gestureName }`, a trigger callback, and an end-of-frame
cleanup deleting keys not observed this frame. -/

/-- Key of `gestureTimersRef`: `hand-${id}-${name}` when `result.id` is
truthy, `temp-${index}` otherwise (GestureCanvas.tsx line 62). -/
inductive GKey where
  | hand : Nat → String → GKey
  | temp : Nat → GKey
deriving DecidableEq, Repr

/-- One entry of the `gestureTimersRef` map: `{ time, gestureName }`
stored under its key (GestureCanvas.tsx lines 84-87). -/
structure TimerEntry where
  key : GKey
  time : ℚ
  gestureName : String
deriving DecidableEq, Repr

/-- One element of the array returned by `detectGestureInVideo`
(part_005 lines 156-161): stable id, gesture name and mirrored anchor. -/
structure GestureResult where
  id : Nat
  name : String
  x : ℚ
  y : ℚ
deriving DecidableEq, Repr

/-- `gestureTimersRef.current.get(key)` on the association-list embedding
of the JS `Map`. -/
def mapGet (timers : List TimerEntry) (k : GKey) : Option TimerEntry :=
  timers.find? (fun e => decide (e.key = k))

/-- `gestureTimersRef.current.set(key, {time, gestureName})`: JS `Map.set`
replaces an existing entry in place, otherwise appends. -/
def mapSet (timers : List TimerEntry) (k : GKey) (t : ℚ) (name : String) :
    List TimerEntry :=
  match timers with
  | [] => [⟨k, t, name⟩]
  | e :: rest =>
      if e.key = k then ⟨k, t, name⟩ :: rest
      else e :: mapSet rest k t name

/-- `gestureTimersRef.current.delete(key)`; `Map` keys are unique, so
removing every entry with this key is the same operation. -/
def mapDelete (timers : List TimerEntry) (k : GKey) : List TimerEntry :=
  timers.filter (fun e => decide (¬ e.key = k))

/-- Per-frame fold state of the `results.forEach` loop in `animate`:
the timer map, the `currentGestureKeys` set (as a list, in insertion
order) and the `onGestureTrigger(result.name)` calls made this frame. -/
structure FrameState where
  timers : List TimerEntry
  keys : List GKey
  triggers : List String
deriving DecidableEq, Repr

/-- `progress = Math.min(accumulatedTime / GESTURE_HOLD_DURATION_MS, 1)`
(GestureCanvas.tsx line 81). -/
def progress (acc : ℚ) : ℚ :=
  min (acc / GESTURE_HOLD_DURATION_MS) 1

/-- Body of the `results.forEach((result, index) => ...)` loop in
`animate` (GestureCanvas.tsx lines 60-100): compute the key, accumulate
(or restart) the timer, zero it when `window.lastTriggeredGesture`
equals the result's name, store it, and on full progress (with the
suppression guard) fire the trigger and delete the entry. -/
def processResult (dt : ℚ) (flag : Option String) (st : FrameState)
    (ir : Nat × GestureResult) : FrameState :=
  let index := ir.1
  let r := ir.2
  let key := if r.id = 0 then GKey.temp index else GKey.hand r.id r.name
  let keys := st.keys ++ [key]
  let acc0 : ℚ :=
    match mapGet st.timers key with
    | some e => if e.gestureName = r.name then e.time + dt else dt
    | none => dt
  let acc : ℚ := if flag = some r.name then 0 else acc0
  let timers1 := mapSet st.timers key acc r.name
  if 1 ≤ progress acc ∧ flag ≠ some r.name then
    { timers := mapDelete timers1 key, keys := keys,
      triggers := st.triggers ++ [r.name] }
  else
    { timers := timers1, keys := keys, triggers := st.triggers }

/-- One detection frame of `animate` for a non-null `results` array
(GestureCanvas.tsx lines 56-111): run the forEach loop over the indexed
results, then delete every timer key that was not observed this frame
(lines 102-109, the cleanup loop). -/
def animateFrame (timers : List TimerEntry) (flag : Option String)
    (results : List GestureResult) (dt : ℚ) : FrameState :=
  let st := (results.enum).foldl (processResult dt flag)
    { timers := timers, keys := [], triggers := [] }
  { st with timers := st.timers.filter (fun e => decide (e.key ∈ st.keys)) }

/-- The `results == null` branch of `animate` (GestureCanvas.tsx lines
112-119): all timers cleared, the suppression flag reset to `null`. -/
def animateFrameNull (_timers : List TimerEntry) (_flag : Option String) :
    List TimerEntry × Option String :=
  ([], none)

/-- The `forEach` body with the two `window.lastTriggeredGesture`
branches removed (the zeroing at lines 76-79 and the guard at line 90).
Used to show that with the flag `none` the suppression branches are
never taken. -/
def processResultNS (dt : ℚ) (st : FrameState)
    (ir : Nat × GestureResult) : FrameState :=
  let index := ir.1
  let r := ir.2
  let key := if r.id = 0 then GKey.temp index else GKey.hand r.id r.name
  let keys := st.keys ++ [key]
  let acc : ℚ :=
    match mapGet st.timers key with
    | some e => if e.gestureName = r.name then e.time + dt else dt
    | none => dt
  let timers1 := mapSet st.timers key acc r.name
  if 1 ≤ progress acc then
    { timers := mapDelete timers1 key, keys := keys,
      triggers := st.triggers ++ [r.name] }
  else
    { timers := timers1, keys := keys, triggers := st.triggers }

/-- `animateFrame` without the suppression branches. -/
def animateFrameNS (timers : List TimerEntry)
    (results : List GestureResult) (dt : ℚ) : FrameState :=
  let st := (results.enum).foldl (processResultNS dt)
    { timers := timers, keys := [], triggers := [] }
  { st with timers := st.timers.filter (fun e => decide (e.key ∈ st.keys)) }

/-- Every assignment the source ever makes to
`window.lastTriggeredGesture`: App.tsx line 229
(`window.lastTriggeredGesture = null` on each stage change) and
GestureCanvas.tsx line 117 (`window.lastTriggeredGesture = null` when
the results array is null).  No other assignment exists in the
repository. -/
def lastTriggeredGestureWrites : List (Option String) := [none, none]

/-- A value the flag can hold at some reachable state: its initial value
(`undefined`, embedded as `none`) or one of the values written to it. -/
def reachableFlag (v : Option String) : Prop :=
  v = none ∨ v ∈ lastTriggeredGestureWrites

/-- Consecutive identical observations of a single hand, used for the
threshold-firing and retrigger analyses: hand id 1 showing gesture
`name` on every frame with a constant frame delta of 16 ms.  Triggers
are accumulated across frames. -/
def runFrames (name : String) : Nat → FrameState
  | 0 => { timers := [], keys := [], triggers := [] }
  | n + 1 =>
      let prev := runFrames name n
      let fs := animateFrame prev.timers none [⟨1, name, 0, 0⟩] 16
      { fs with triggers := prev.triggers ++ fs.triggers }

/-- The key of hand 1 showing `name`, as `runFrames` produces it. -/
def obsKey (name : String) : GKey := GKey.hand 1 name

/-- The `hand-${id}-${name}` / `temp-${index}` key of one indexed
detection result (GestureCanvas.tsx line 62). -/
def keyOf (ir : Nat × GestureResult) : GKey :=
  if ir.2.id = 0 then GKey.temp ir.1 else GKey.hand ir.2.id ir.2.name

/-! ## Hand tracker (src/unnamed/part_005, `detectGestureInVideo`)

The multi-hand tracker (lines 58-109): greedy nearest-neighbour match
of each tracked hand, in array order, against the closest unused
current-frame hand within `HAND_MATCH_THRESHOLD`; unmatched current
hands get fresh ids; hands unseen for `HAND_TIMEOUT_MS` are dropped. -/

/-- A normalized 2D point. -/
structure Pt where
  x : ℚ
  y : ℚ
deriving DecidableEq, Repr

/-- Squared distance; the source compares `Math.hypot` outputs against
nonnegative thresholds, which is equivalent to comparing the squares. -/
def sqDist (a b : Pt) : ℚ := (a.x - b.x) ^ 2 + (a.y - b.y) ^ 2

/-- One entry of the module-level `trackedHands` array (part_005
lines 28-32). -/
structure PTrackedHand where
  id : Nat
  lastPosition : Pt
  lastSeen : ℚ
deriving DecidableEq, Repr

/-- The inner loop of the matcher (part_005 lines 65-75): scan the
current-frame hand positions in index order, skipping indices already
used, and keep the index of the strictly smallest distance seen so far,
starting from the `HAND_MATCH_THRESHOLD` bound (squared here). -/
def findBestCurrent (trackedPos : Pt) (current : List Pt)
    (used : List Nat) : Option Nat :=
  (current.enum.foldl
    (fun (acc : Option Nat × ℚ) p =>
      if p.1 ∈ used then acc
      else if sqDist p.2 trackedPos < acc.2 then (some p.1, sqDist p.2 trackedPos)
      else acc)
    ((none : Option Nat), HAND_MATCH_THRESHOLD_SQ)).1

/-- Fold state of the matcher: used current-frame indices, the
`handIdMap` (`currentIndex -> handId`) and the updated tracked-hand
array, all in insertion order. -/
structure MatchState where
  usedCurrent : List Nat
  handIdMap : List (Nat × Nat)
  hands : List PTrackedHand
deriving DecidableEq, Repr

/-- Body of `trackedHands.forEach` (part_005 lines 64-90): if a best
current index exists, mark it used, record the id mapping and update
the tracked hand's position and `lastSeen`; otherwise the tracked hand
is left as it is. -/
def matchTracked (current : List Pt) (timestamp : ℚ) (st : MatchState)
    (tracked : PTrackedHand) : MatchState :=
  match findBestCurrent tracked.lastPosition current st.usedCurrent with
  | some j =>
      { usedCurrent := st.usedCurrent ++ [j],
        handIdMap := st.handIdMap ++ [(j, tracked.id)],
        hands := st.hands ++
          [{ tracked with
               lastPosition := current.getD j ⟨0, 0⟩,
               lastSeen := timestamp }] }
  | none => { st with hands := st.hands ++ [tracked] }

/-- The new-id loop (part_005 lines 93-106): every current index not
matched above becomes a fresh tracked hand with id `nextHandId++`. -/
def assignNewIds (current : List Pt) (timestamp : ℚ) (st : MatchState)
    (nextHandId : Nat) : MatchState × Nat :=
  current.enum.foldl
    (fun (acc : MatchState × Nat) p =>
      if p.1 ∈ acc.1.usedCurrent then acc
      else
        ({ acc.1 with
            handIdMap := acc.1.handIdMap ++ [(p.1, acc.2)],
            hands := acc.1.hands ++ [⟨acc.2, p.2, timestamp⟩] },
          acc.2 + 1))
    (st, nextHandId)

/-- One tracker update for a non-empty detection frame (part_005 lines
58-109): greedy matching, new-id assignment, then the
`timestamp - lastSeen < HAND_TIMEOUT_MS` retention filter. -/
def trackerUpdate (trackedHands : List PTrackedHand) (nextHandId : Nat)
    (current : List Pt) (timestamp : ℚ) : MatchState × Nat :=
  let st1 := trackedHands.foldl (matchTracked current timestamp)
    { usedCurrent := [], handIdMap := [], hands := [] }
  let st2 := assignNewIds current timestamp st1 nextHandId
  ({ st2.1 with
      hands := st2.1.hands.filter
        (fun h => decide (timestamp - h.lastSeen < HAND_TIMEOUT_MS)) },
    st2.2)

/-! ## Gesture classifier (src/unnamed/part_005, lines 112-163)

Palm-scale-normalized geometry on the 21 landmarks of one hand.  The
source compares `Math.hypot` distances with `palmSize` multiples; all
quantities here are squared, which preserves every comparison since
both sides are nonnegative: the multipliers become `1.3^2 = 169/100`,
`1.0^2 = 1` and `0.6^2 = 9/25`. -/

/-- The classifier body (part_005 lines 116-152) for one full hand of
21 keypoints.  `isThumbExtended` is computed by the source but unused
by the two rules; it is kept for fidelity. -/
def classifyLandmarks (lm : Fin 21 → Pt) : String :=
  let thumbTip := lm 4
  let indexTip := lm 8
  let middleTip := lm 12
  let ringTip := lm 16
  let pinkyTip := lm 20
  let wrist := lm 0
  let middleMCP := lm 9
  let palmSizeSq := sqDist middleMCP wrist
  let extensionThresholdSq := palmSizeSq * (169/100)
  let thumbExtensionThresholdSq := palmSizeSq * 1
  let pinchThresholdSq := palmSizeSq * (9/25)
  let pinchDistanceSq := sqDist thumbTip indexTip
  let distIndexSq := sqDist indexTip wrist
  let distMiddleSq := sqDist middleTip wrist
  let distRingSq := sqDist ringTip wrist
  let distPinkySq := sqDist pinkyTip wrist
  let distThumbSq := sqDist thumbTip wrist
  let isIndexExtended := extensionThresholdSq < distIndexSq
  let isMiddleExtended := extensionThresholdSq < distMiddleSq
  let isRingExtended := extensionThresholdSq < distRingSq
  let isPinkyExtended := extensionThresholdSq < distPinkySq
  let _isThumbExtended := thumbExtensionThresholdSq < distThumbSq
  if isIndexExtended ∧ isMiddleExtended ∧ ¬ isRingExtended ∧ ¬ isPinkyExtended then
    "Two_Fingers"
  else if pinchDistanceSq < pinchThresholdSq ∧ isMiddleExtended ∧
      isRingExtended ∧ isPinkyExtended then
    "OK_Hand"
  else
    "None"

/-- Uniform scaling of all coordinates of a hand by `c`. -/
def scaleLm (c : ℚ) (lm : Fin 21 → Pt) : Fin 21 → Pt :=
  fun i => ⟨c * (lm i).x, c * (lm i).y⟩

/-- A canonical two-fingers fixture: wrist at the origin, middle-finger
base one palm unit above it, index and middle tips extended well beyond
`1.3 ×` palm size, ring and pinky tips folded, thumb beside the wrist.
All unused landmarks sit at the origin. -/
def twoFingersFixture : Fin 21 → Pt :=
  fun i =>
    if i.val = 9 then ⟨0, 1⟩
    else if i.val = 8 then ⟨0, 2⟩
    else if i.val = 12 then ⟨1/2, 2⟩
    else if i.val = 16 then ⟨0, 1/2⟩
    else if i.val = 20 then ⟨1/2, 1/2⟩
    else if i.val = 4 then ⟨1, 0⟩
    else ⟨0, 0⟩

/-! ## Classifier on possibly-missing / NaN inputs

JavaScript semantics for malformed landmark arrays: reading `.x` of a
missing element throws a `TypeError` (embedded with `Except`), and a
`NaN` coordinate contaminates every arithmetic result, with every
`<` / `>` comparison against `NaN` evaluating to `false`.  `NaN` is
embedded as `none : Option ℚ`. -/

/-- A rational or NaN (`none`). -/
abbrev QN := Option ℚ

/-- A point whose coordinates may be NaN. -/
structure NPt where
  x : QN
  y : QN
deriving DecidableEq, Repr

/-- NaN-propagating binary arithmetic. -/
def nbin (f : ℚ → ℚ → ℚ) (a b : QN) : QN :=
  a.bind fun u => b.map fun v => f u v

/-- A JS comparison: `false` whenever either side is NaN. -/
def ncmp (f : ℚ → ℚ → Bool) (a b : QN) : Bool :=
  (a.bind fun u => b.map fun v => f u v).getD false

/-- NaN-propagating squared distance (squares `Math.hypot`). -/
def sqDistN (a b : NPt) : QN :=
  nbin (· + ·) (nbin (· * ·) (nbin (· - ·) a.x b.x) (nbin (· - ·) a.x b.x))
    (nbin (· * ·) (nbin (· - ·) a.y b.y) (nbin (· - ·) a.y b.y))

/-- The classifier body of part_005 on the seven landmarks it reads,
with NaN-aware arithmetic; Boolean conditions mirror the JS booleans
(`NaN` comparisons are `false`). -/
def classifyNaN (thumbTip indexTip middleTip ringTip pinkyTip wrist middleMCP :
    NPt) : String :=
  let palmSizeSq := sqDistN middleMCP wrist
  let extensionThresholdSq := nbin (· * ·) palmSizeSq (some (169/100))
  let _thumbExtensionThresholdSq := nbin (· * ·) palmSizeSq (some 1)
  let pinchThresholdSq := nbin (· * ·) palmSizeSq (some (9/25))
  let pinchDistanceSq := sqDistN thumbTip indexTip
  let isIndexExtended := ncmp (fun u v => decide (v < u)) (sqDistN indexTip wrist) extensionThresholdSq
  let isMiddleExtended := ncmp (fun u v => decide (v < u)) (sqDistN middleTip wrist) extensionThresholdSq
  let isRingExtended := ncmp (fun u v => decide (v < u)) (sqDistN ringTip wrist) extensionThresholdSq
  let isPinkyExtended := ncmp (fun u v => decide (v < u)) (sqDistN pinkyTip wrist) extensionThresholdSq
  let isPinched := ncmp (fun u v => decide (u < v)) pinchDistanceSq pinchThresholdSq
  if isIndexExtended && isMiddleExtended && !isRingExtended && !isPinkyExtended then
    "Two_Fingers"
  else if isPinched && isMiddleExtended && isRingExtended && isPinkyExtended then
    "OK_Hand"
  else
    "None"

/-- Wrapper that performs the seven landmark reads of part_005 lines
116-123 on an arbitrary-length list: a missing index is JavaScript
`undefined`, and the subsequent property read throws. -/
def classifyChecked (landmarks : List NPt) : Except String String :=
  match landmarks[4]?, landmarks[8]?, landmarks[12]?, landmarks[16]?,
      landmarks[20]?, landmarks[0]?, landmarks[9]? with
  | some thumbTip, some indexTip, some middleTip, some ringTip,
      some pinkyTip, some wrist, some middleMCP =>
      Except.ok (classifyNaN thumbTip indexTip middleTip ringTip pinkyTip
        wrist middleMCP)
  | _, _, _, _, _, _, _ =>
      Except.error "TypeError: cannot read properties of undefined"

/-- A 21-point hand whose only malformation is a NaN ring-tip
(index 16); the remaining points form the two-fingers shape of
`twoFingersFixture`. -/
def nanRingFixture : List NPt :=
  [⟨some 0, some 0⟩, ⟨some 0, some 0⟩, ⟨some 0, some 0⟩, ⟨some 0, some 0⟩,
   ⟨some 1, some 0⟩, ⟨some 0, some 0⟩, ⟨some 0, some 0⟩, ⟨some 0, some 0⟩,
   ⟨some 0, some 2⟩, ⟨some 0, some 1⟩, ⟨some 0, some 0⟩, ⟨some 0, some 0⟩,
   ⟨some (1/2), some 2⟩, ⟨some 0, some 0⟩, ⟨some 0, some 0⟩, ⟨some 0, some 0⟩,
   ⟨none, none⟩, ⟨some 0, some 0⟩, ⟨some 0, some 0⟩, ⟨some 0, some 0⟩,
   ⟨some (1/2), some (1/2)⟩]

/-- A 21-point hand with every coordinate NaN. -/
def allNaNHand : List NPt := List.replicate 21 ⟨none, none⟩

/-! ## Session state machine (src/App.tsx and src/unnamed/part_001) -/

/-- `AppStage` (types.ts). -/
inductive AppStage where
  | LOADING_MODEL
  | IDLE
  | COUNTDOWN
  | CAPTURE_FLASH
  | PROCESSING
  | RESULT
deriving DecidableEq, Repr

/-- The trigger-acceptance filter of part_001's `animate` (lines
114-123): in `IDLE`, `Open_Palm` is always accepted and `OK_Hand` only
with at least one photo; in `RESULT`, `Open_Palm`; nothing elsewhere. -/
def part001IsTriggerGesture (stage : AppStage) (photosLength : Nat)
    (name : String) : Bool :=
  match stage with
  | AppStage.IDLE =>
      (name == "Open_Palm") || ((name == "OK_Hand") && decide (0 < photosLength))
  | AppStage.RESULT => name == "Open_Palm"
  | _ => false

/-- The trigger dispatch of part_001's `animate` (lines 141-146)
composed with the state changes of `startCountdown` (→ `COUNTDOWN`),
`finishSession` (→ `RESULT`) and `restartApp` (→ `IDLE`, photos
cleared), as `(stage, photos)`. -/
def part001OnTrigger (stage : AppStage) (photos : List Nat)
    (name : String) : AppStage × List Nat :=
  match stage with
  | AppStage.IDLE =>
      if name == "Open_Palm" then (AppStage.COUNTDOWN, photos)
      else if name == "OK_Hand" then (AppStage.RESULT, photos)
      else (stage, photos)
  | AppStage.RESULT =>
      if name == "Open_Palm" then (AppStage.IDLE, []) else (stage, photos)
  | _ => (stage, photos)

/-- The state read and written by App.tsx's `takePhoto`: the stage, the
captured photo list and the `isCapturingRef` re-entrancy lock. -/
structure CaptureState where
  stage : AppStage
  photos : List Nat
  isCapturing : Bool
deriving DecidableEq, Repr

/-- App.tsx `takePhoto` (lines 167-221), with the flash and settle
`setTimeout`s collapsed to their final state (the model returns the
state after all scheduled `setState` calls have run).  `webcamPresent`
is `webcamRef.current != null`; `imageSrc` is the
`getScreenshot()` result (`none` = no frame available).  The
`applyFrameToPhoto` try/catch appends the photo on both paths, so it is
modeled as a single append. -/
def takePhoto (s : CaptureState) (webcamPresent : Bool)
    (imageSrc : Option Nat) : CaptureState :=
  if s.isCapturing then s
  else
    let s1 : CaptureState :=
      { s with isCapturing := true, stage := AppStage.CAPTURE_FLASH }
    if webcamPresent then
      match imageSrc with
      | some img =>
          let updated := s1.photos ++ [img]
          if MAX_PHOTOS ≤ updated.length then
            { s1 with photos := updated, stage := AppStage.RESULT }
          else
            { s1 with
                photos := updated,
                stage := AppStage.IDLE,
                isCapturing := false }
      | none =>
          { s1 with isCapturing := false, stage := AppStage.IDLE }
    else s1

/-! ## Countdown timers (src/App.tsx, `startCountdown` / `restartApp`)

`startCountdown` (lines 81-99) creates a `setInterval` whose handle is
a local constant; no state field ever stores it and no code path other
than the interval's own `count === 0` branch calls `clearInterval`.
`intervals` below is the multiset of live interval handles, each
carried as its remaining `count`. -/

/-- App-level state together with the live `setInterval` handles. -/
structure SysState where
  stage : AppStage
  photos : List Nat
  isCapturing : Bool
  countdown : Option Nat
  intervals : List Nat
deriving DecidableEq, Repr

/-- `startCountdown` (App.tsx lines 81-99): no-op under the capture
lock; otherwise enter `COUNTDOWN`, show the count and register a fresh
interval with `COUNTDOWN_DURATION_SEC` ticks remaining. -/
def startCountdown (s : SysState) : SysState :=
  if s.isCapturing then s
  else
    { s with
        stage := AppStage.COUNTDOWN,
        countdown := some COUNTDOWN_DURATION_SEC,
        intervals := s.intervals ++ [COUNTDOWN_DURATION_SEC] }

/-- `restartApp` (App.tsx lines 73-79): clear photos, clear the visible
countdown, return to `IDLE` and release the lock.  The function body
contains no `clearInterval`, so `intervals` is untouched. -/
def restartApp (s : SysState) : SysState :=
  { s with
      photos := [],
      countdown := none,
      stage := AppStage.IDLE,
      isCapturing := false }

/-- `takePhoto` lifted to `SysState`, with the webcam present and the
screenshot succeeding with photo `img`. -/
def takePhotoSys (s : SysState) (img : Nat) : SysState :=
  let c := takePhoto ⟨s.stage, s.photos, s.isCapturing⟩ true (some img)
  { s with stage := c.stage, photos := c.photos, isCapturing := c.isCapturing }

/-- One firing of the oldest live interval (the `setInterval` callback,
App.tsx lines 89-98): decrement `count`; at zero, clear this interval,
hide the countdown and call `takePhoto`; otherwise display the new
count. -/
def intervalTick (s : SysState) (img : Nat) : SysState :=
  match s.intervals with
  | [] => s
  | c :: rest =>
      let c2 := c - 1
      if c2 = 0 then
        takePhotoSys { s with intervals := rest, countdown := none } img
      else { s with intervals := c2 :: rest, countdown := some c2 }

/-! ## Lemmas and claim theorems -/

/-- `progress >= 1` is exactly `accumulatedTime >= GESTURE_HOLD_DURATION_MS`. -/
theorem progress_one_iff (acc : ℚ) :
    1 ≤ progress acc ↔ GESTURE_HOLD_DURATION_MS ≤ acc := by
  have h3 : (0 : ℚ) < 3000 := by norm_num
  simp [progress, GESTURE_HOLD_DURATION_MS, le_min_iff, one_le_div h3]

/-- With the suppression flag `null`, the forEach body of `animate` is
the body with both suppression branches removed. -/
theorem processResult_flag_none (dt : ℚ) :
    processResult dt none = processResultNS dt := by
  funext st ir
  simp [processResult, processResultNS]

/-- Claim C10: `window.lastTriggeredGesture` is only ever assigned
`null`, so every reachable value of the flag is `none`, and with the
flag `none` the accumulator's two suppression branches (zeroing the
accumulated time and blocking the trigger for an already-triggered
label) are never taken: a frame of `animate` equals the same frame with
the suppression branches removed. -/
theorem claim10_flagAlwaysNull :
    (∀ v : Option String, reachableFlag v → v = none) ∧
    (∀ (timers : List TimerEntry) (results : List GestureResult) (dt : ℚ),
      animateFrame timers none results dt = animateFrameNS timers results dt) := by
  constructor
  · intro v h
    rcases h with h | h
    · exact h
    · simpa [lastTriggeredGestureWrites] using h
  · intro timers results dt
    simp [animateFrame, animateFrameNS, processResult_flag_none]

/-- Claim C10 witness: the invariant and the branch-equivalence at a
concrete reachable flag value and a concrete frame. -/
theorem claim10_flagAlwaysNull_witness :
    (none : Option String) = none ∧
    animateFrame [] none [⟨1, "OK_Hand", 0, 0⟩] 16 =
      animateFrameNS [] [⟨1, "OK_Hand", 0, 0⟩] 16 :=
  ⟨claim10_flagAlwaysNull.1 none (Or.inl rfl),
   claim10_flagAlwaysNull.2 [] [⟨1, "OK_Hand", 0, 0⟩] 16⟩

/-- Claim C6: in the Idle stage a confirm-finish (`OK_Hand`)
confirmation is accepted iff at least one photo has been captured, and
accepting it transitions the stage to Reviewing (`RESULT`), keeping the
photos. -/
theorem claim6_confirmFinish :
    ∀ photos : List Nat,
      (part001IsTriggerGesture AppStage.IDLE photos.length "OK_Hand" = true ↔
        0 < photos.length) ∧
      part001OnTrigger AppStage.IDLE photos "OK_Hand" =
        (AppStage.RESULT, photos) := by
  intro photos
  constructor
  · simp [part001IsTriggerGesture]
  · simp [part001OnTrigger]

/-- Claim C6 witness: with one photo captured, confirm-finish is
accepted and ends the session in `RESULT`. -/
theorem claim6_confirmFinish_witness :
    (part001IsTriggerGesture AppStage.IDLE [7].length "OK_Hand" = true ↔
      0 < [7].length) ∧
    part001OnTrigger AppStage.IDLE [7] "OK_Hand" = (AppStage.RESULT, [7]) :=
  claim6_confirmFinish [7]

/-- Claim C7: when the screenshot is unavailable (`getScreenshot()`
returns null), `takePhoto` releases the capture lock, returns the stage
to Idle and leaves the photo sequence unchanged; the model is total, so
no fault propagates. -/
theorem claim7_captureFailureUnlocks :
    ∀ s : CaptureState, s.isCapturing = false →
      takePhoto s true none =
        { s with stage := AppStage.IDLE, isCapturing := false } := by
  intro s h
  simp [takePhoto, h]

/-- Claim C7 witness: a concrete failed capture from the countdown with
one photo already taken. -/
theorem claim7_captureFailureUnlocks_witness :
    takePhoto ⟨AppStage.COUNTDOWN, [7], false⟩ true none =
      ⟨AppStage.IDLE, [7], false⟩ :=
  claim7_captureFailureUnlocks ⟨AppStage.COUNTDOWN, [7], false⟩ rfl

/-- Claim C9 is false of the code (code bug): `startCountdown` never
stores its interval handle and `restartApp` clears no timer, so after a
manual restart during the countdown the stale interval keeps ticking in
the Idle state and its final tick invokes `takePhoto`, capturing a
photo into the restarted session.  Concretely: start a countdown from
Idle, restart immediately, let the orphaned interval tick three times —
the state was Idle with no photos after the restart, remains Idle after
two stale ticks, and the third stale tick captures photo 99. -/
theorem claim9_staleTickCaptures :
    (restartApp (startCountdown ⟨AppStage.IDLE, [], false, none, []⟩)).stage
        = AppStage.IDLE ∧
    (restartApp (startCountdown ⟨AppStage.IDLE, [], false, none, []⟩)).photos
        = [] ∧
    (restartApp (startCountdown ⟨AppStage.IDLE, [], false, none, []⟩)).intervals
        = [COUNTDOWN_DURATION_SEC] ∧
    (intervalTick (intervalTick
        (restartApp (startCountdown ⟨AppStage.IDLE, [], false, none, []⟩)) 99) 99).stage
        = AppStage.IDLE ∧
    (intervalTick (intervalTick (intervalTick
        (restartApp (startCountdown ⟨AppStage.IDLE, [], false, none, []⟩)) 99) 99) 99).photos
        = [99] := by
  decide

/-- First frame of a single-hand run: an entry is created with
`accumulatedTime = dt = 16`. -/
theorem animateFrame_start (name : String) :
    animateFrame [] none [⟨1, name, 0, 0⟩] 16 =
      { timers := [⟨obsKey name, 16, name⟩], keys := [obsKey name],
        triggers := [] } := by
  have hp : ¬ (1 : ℚ) ≤ progress 16 := by
    rw [progress_one_iff]; norm_num [GESTURE_HOLD_DURATION_MS]
  simp [animateFrame, processResult, mapGet, mapSet, mapDelete, obsKey, hp]

/-- Continuation frame below the threshold: the entry accumulates `dt`. -/
theorem animateFrame_hold (name : String) (t : ℚ) (h : t + 16 < 3000) :
    animateFrame [⟨obsKey name, t, name⟩] none [⟨1, name, 0, 0⟩] 16 =
      { timers := [⟨obsKey name, t + 16, name⟩], keys := [obsKey name],
        triggers := [] } := by
  have hp : ¬ (1 : ℚ) ≤ progress (t + 16) := by
    rw [progress_one_iff]; simp [GESTURE_HOLD_DURATION_MS]; linarith
  simp [animateFrame, processResult, mapGet, mapSet, mapDelete, obsKey, hp]

/-- Frame reaching the threshold: the trigger fires and the entry is
deleted. -/
theorem animateFrame_fire (name : String) (t : ℚ) (h : 3000 ≤ t + 16) :
    animateFrame [⟨obsKey name, t, name⟩] none [⟨1, name, 0, 0⟩] 16 =
      { timers := [], keys := [obsKey name], triggers := [name] } := by
  have hp : (1 : ℚ) ≤ progress (t + 16) := by
    rw [progress_one_iff]; simpa [GESTURE_HOLD_DURATION_MS] using h
  simp [animateFrame, processResult, mapGet, mapSet, mapDelete, obsKey, hp]

/-- Closed form of the single-hand run while below the threshold:
after `n ≤ 187` frames the sole entry holds `16 n` ms and nothing has
fired. -/
theorem runFrames_building (name : String) :
    ∀ n : Nat, 1 ≤ n → n ≤ 187 →
      runFrames name n =
        { timers := [⟨obsKey name, 16 * (n : ℚ), name⟩],
          keys := [obsKey name], triggers := [] } := by
  intro n
  induction n with
  | zero => omega
  | succ m ih =>
      intro _ hle
      rcases Nat.eq_zero_or_pos m with hm | hm
      · subst hm
        show (let prev := runFrames name 0
              let fs := animateFrame prev.timers none [⟨1, name, 0, 0⟩] 16
              { fs with triggers := prev.triggers ++ fs.triggers }) = _
        simp [runFrames, animateFrame_start]
      · have hm187 : m ≤ 187 := by omega
        have hstep := ih hm hm187
        show (let prev := runFrames name m
              let fs := animateFrame prev.timers none [⟨1, name, 0, 0⟩] 16
              { fs with triggers := prev.triggers ++ fs.triggers }) = _
        have harith : (16 : ℚ) * (m : ℚ) + 16 < 3000 := by
          have : (m : ℚ) ≤ 186 := by exact_mod_cast (by omega : m ≤ 186)
          linarith
        simp [hstep, animateFrame_hold name (16 * (m : ℚ)) harith]
        ring

/-- On frame 188 (accumulated `16 × 188 = 3008 ≥ 3000`) the
confirmation fires and the entry is deleted. -/
theorem runFrames_fire1 (name : String) :
    runFrames name 188 =
      { timers := [], keys := [obsKey name], triggers := [name] } := by
  have h187 := runFrames_building name 187 (by norm_num) (by norm_num)
  show (let prev := runFrames name 187
        let fs := animateFrame prev.timers none [⟨1, name, 0, 0⟩] 16
        { fs with triggers := prev.triggers ++ fs.triggers }) = _
  have harith : (3000 : ℚ) ≤ 16 * (187 : ℚ) + 16 := by norm_num
  simp [h187, animateFrame_fire name (16 * (187 : ℚ)) harith]

/-- After the first confirmation the still-held gesture re-accumulates
from scratch: `j ≤ 187` further frames rebuild an entry of `16 j` ms. -/
theorem runFrames_after (name : String) :
    ∀ j : Nat, 1 ≤ j → j ≤ 187 →
      runFrames name (188 + j) =
        { timers := [⟨obsKey name, 16 * (j : ℚ), name⟩],
          keys := [obsKey name], triggers := [name] } := by
  intro j
  induction j with
  | zero => omega
  | succ m ih =>
      intro _ hle
      rcases Nat.eq_zero_or_pos m with hm | hm
      · subst hm
        show (let prev := runFrames name 188
              let fs := animateFrame prev.timers none [⟨1, name, 0, 0⟩] 16
              { fs with triggers := prev.triggers ++ fs.triggers }) = _
        simp [runFrames_fire1, animateFrame_start]
      · have hm187 : m ≤ 187 := by omega
        have hstep := ih hm hm187
        show (let prev := runFrames name (188 + m)
              let fs := animateFrame prev.timers none [⟨1, name, 0, 0⟩] 16
              { fs with triggers := prev.triggers ++ fs.triggers }) = _
        have harith : (16 : ℚ) * (m : ℚ) + 16 < 3000 := by
          have : (m : ℚ) ≤ 186 := by exact_mod_cast (by omega : m ≤ 186)
          linarith
        simp [hstep, animateFrame_hold name (16 * (m : ℚ)) harith]
        ring

/-- Claim C1 is false of the code (code bug): firing does delete the
entry, but nothing ever sets `window.lastTriggeredGesture`, so a hand
that keeps holding the same gesture without releasing it confirms
again.  Concretely, hand 1 holding `OK_Hand` on every 16 ms frame
confirms at frame 188 (the entry is deleted), and — still without any
release — confirms a second time at frame 376. -/
theorem claim1_heldGestureConfirmsTwice :
    (runFrames "OK_Hand" 188).triggers = ["OK_Hand"] ∧
    (runFrames "OK_Hand" 188).timers = [] ∧
    (runFrames "OK_Hand" 376).triggers = ["OK_Hand", "OK_Hand"] := by
  refine ⟨by rw [runFrames_fire1], by rw [runFrames_fire1], ?_⟩
  have h375 : runFrames "OK_Hand" 375 =
      { timers := [⟨obsKey "OK_Hand", 2992, "OK_Hand"⟩],
        keys := [obsKey "OK_Hand"], triggers := ["OK_Hand"] } := by
    have h := runFrames_after "OK_Hand" 187 (by norm_num) (by norm_num)
    norm_num at h
    exact h
  show (let prev := runFrames "OK_Hand" 375
        let fs := animateFrame prev.timers none [⟨1, "OK_Hand", 0, 0⟩] 16
        ({ fs with triggers := prev.triggers ++ fs.triggers } : FrameState)).triggers = _
  have harith : (3000 : ℚ) ≤ 2992 + 16 := by norm_num
  simp [h375, animateFrame_fire "OK_Hand" 2992 harith]

/-- Claim C4: with `HOLD = 3000 ms` and constant 16 ms deltas, a key
observed on every consecutive frame never confirms before frame 188
and confirms on frame 188. -/
theorem claim4_thresholdFiring :
    (∀ n : Nat, n < 188 → (runFrames "Two_Fingers" n).triggers = []) ∧
    (runFrames "Two_Fingers" 188).triggers = ["Two_Fingers"] := by
  constructor
  · intro n hn
    rcases Nat.eq_zero_or_pos n with h0 | h1
    · subst h0; rfl
    · rw [runFrames_building "Two_Fingers" n h1 (by omega)]
  · rw [runFrames_fire1]

/-- Claim C4 witness: no confirmation after 100 consecutive frames. -/
theorem claim4_thresholdFiring_witness :
    (runFrames "Two_Fingers" 100).triggers = [] :=
  claim4_thresholdFiring.1 100 (by norm_num)

/-- Claim C2 counterexample: a key updated 16 ms ago — far inside any
350 ms grace window — whose hand is absent this frame is evicted at
once, instead of continuing to accumulate.  Frame one creates the
hand-1 entry; frame two (16 ms later) observes only hand 2 and the
hand-1 entry is gone. -/
theorem claim2_noGraceWindow_cex :
    (animateFrame [] none [⟨1, "Two_Fingers", 0, 0⟩] 16).timers
        = [⟨obsKey "Two_Fingers", 16, "Two_Fingers"⟩] ∧
    (animateFrame [⟨obsKey "Two_Fingers", 16, "Two_Fingers"⟩] none
        [⟨2, "Two_Fingers", 0, 0⟩] 16).timers
        = [⟨GKey.hand 2 "Two_Fingers", 16, "Two_Fingers"⟩] := by
  constructor
  · rw [animateFrame_start]
  · have hp : ¬ (1 : ℚ) ≤ progress 16 := by
      rw [progress_one_iff]; norm_num [GESTURE_HOLD_DURATION_MS]
    simp [animateFrame, processResult, mapGet, mapSet, mapDelete, obsKey, hp]

/-- The forEach loop appends exactly the current frame's keys to
`currentGestureKeys`, in order. -/
theorem foldl_processResult_keys (dt : ℚ) (flag : Option String) :
    ∀ (l : List (Nat × GestureResult)) (st : FrameState),
      (l.foldl (processResult dt flag) st).keys = st.keys ++ l.map keyOf := by
  intro l
  induction l with
  | nil => simp
  | cons p tl ih =>
      intro st
      rw [List.foldl_cons, ih]
      have hk : (processResult dt flag st p).keys = st.keys ++ [keyOf p] := by
        simp only [processResult, keyOf]
        repeat' split
        all_goals rfl
      rw [hk]
      simp

/-- Claim C2 amended: the accumulator applies no grace window — every
timer entry surviving a frame of `animate` has its key among the keys
observed in that very frame, so a key absent for even a single frame is
evicted (reset to zero) immediately. -/
theorem claim2_amended_immediateEviction :
    ∀ (timers : List TimerEntry) (flag : Option String)
      (results : List GestureResult) (dt : ℚ) (e : TimerEntry),
      e ∈ (animateFrame timers flag results dt).timers →
      e.key ∈ results.enum.map keyOf := by
  intro timers flag results dt e hmem
  simp only [animateFrame, List.mem_filter, decide_eq_true_eq] at hmem
  have hkeys := foldl_processResult_keys dt flag results.enum
    { timers := timers, keys := [], triggers := [] }
  rw [hkeys] at hmem
  simpa using hmem.2

/-- Claim C2 amended witness: the surviving entry of a concrete frame
carries a key observed in that frame. -/
theorem claim2_amended_immediateEviction_witness :
    (GKey.hand 1 "Two_Fingers") ∈
      ([⟨1, "Two_Fingers", 0, 0⟩] : List GestureResult).enum.map keyOf :=
  claim2_amended_immediateEviction [] none [⟨1, "Two_Fingers", 0, 0⟩] 16
    ⟨GKey.hand 1 "Two_Fingers", 16, "Two_Fingers"⟩
    (by rw [animateFrame_start]; simp [obsKey])

/-- Claim C3 counterexample: tracked hands 1 at `(0,0)` and 2 at
`(0.2, 0)`; the observations `(0.14, 0)` and `(0.1, 0)` are each within
the 0.15 match threshold of their own hand (distances 0.14 and 0.1),
yet greedy matching gives observation 0 the id 2 and observation 1 the
id 1 — the ids are swapped, because hand 1 prefers the other hand's
observation at distance 0.1 over its own at 0.14. -/
theorem claim3_crossingSwap_cex :
    sqDist ⟨7/50, 0⟩ ⟨0, 0⟩ < HAND_MATCH_THRESHOLD_SQ ∧
    sqDist ⟨1/10, 0⟩ ⟨1/5, 0⟩ < HAND_MATCH_THRESHOLD_SQ ∧
    (trackerUpdate [⟨1, ⟨0, 0⟩, 0⟩, ⟨2, ⟨1/5, 0⟩, 0⟩] 3
        [⟨7/50, 0⟩, ⟨1/10, 0⟩] 0).1.handIdMap
      = [(1, 1), (0, 2)] := by
  refine ⟨by norm_num [sqDist, HAND_MATCH_THRESHOLD_SQ],
          by norm_num [sqDist, HAND_MATCH_THRESHOLD_SQ], ?_⟩
  norm_num [trackerUpdate, matchTracked, findBestCurrent, assignNewIds,
    sqDist, HAND_MATCH_THRESHOLD_SQ, List.enum, List.enumFrom]

/-- Claim C3 amended: for two tracked hands and two observations each
within the 0.15 match threshold of its own hand, the greedy matcher
keeps both ids provided additionally the first-processed tracked hand
is at least as close to its own observation as to the other one (ties
keep the earlier observation index). -/
theorem claim3_amended_noSwap
    (a b nid : Nat) (pA pB o1 o2 : Pt) (ts : ℚ)
    (h1 : sqDist o1 pA < HAND_MATCH_THRESHOLD_SQ)
    (h2 : sqDist o2 pB < HAND_MATCH_THRESHOLD_SQ)
    (h3 : sqDist o1 pA ≤ sqDist o2 pA) :
    (trackerUpdate [⟨a, pA, ts⟩, ⟨b, pB, ts⟩] nid [o1, o2] ts).1.handIdMap
      = [(0, a), (1, b)] := by
  have hA : findBestCurrent pA [o1, o2] [] = some 0 := by
    simp [findBestCurrent, List.enum, List.enumFrom, h1, not_lt.mpr h3]
  have hB : findBestCurrent pB [o1, o2] [0] = some 1 := by
    simp [findBestCurrent, List.enum, List.enumFrom, h2]
  simp [trackerUpdate, matchTracked, hA, hB, assignNewIds, List.enum,
    List.enumFrom]

/-- Claim C3 amended witness: hands 1 at the origin and 2 at
`(0.5, 0)`, observations at `(0.1, 0)` and `(0.5, 0.1)`: no swap. -/
theorem claim3_amended_noSwap_witness :
    (trackerUpdate [⟨1, ⟨0, 0⟩, 0⟩, ⟨2, ⟨1/2, 0⟩, 0⟩] 3
        [⟨1/10, 0⟩, ⟨1/2, 1/10⟩] 0).1.handIdMap
      = [(0, 1), (1, 2)] :=
  claim3_amended_noSwap 1 2 3 ⟨0, 0⟩ ⟨1/2, 0⟩ ⟨1/10, 0⟩ ⟨1/2, 1/10⟩ 0
    (by norm_num [sqDist, HAND_MATCH_THRESHOLD_SQ])
    (by norm_num [sqDist, HAND_MATCH_THRESHOLD_SQ])
    (by norm_num [sqDist])

/-- Uniform coordinate scaling multiplies every squared distance of a
hand by `c ^ 2`. -/
theorem sqDist_scaleLm (c : ℚ) (lm : Fin 21 → Pt) (i j : Fin 21) :
    sqDist (scaleLm c lm i) (scaleLm c lm j) = c ^ 2 * sqDist (lm i) (lm j) := by
  simp [scaleLm, sqDist]
  ring

/-- Claim C5: the classifier is invariant under uniform scaling of all
coordinates by any positive factor (every threshold is a multiple of
palm size, which scales identically), and in particular the canonical
two-fingers fixture classifies as `Two_Fingers` at every positive
scale. -/
theorem claim5_scaleInvariance :
    (∀ (lm : Fin 21 → Pt) (c : ℚ), 0 < c →
       classifyLandmarks (scaleLm c lm) = classifyLandmarks lm) ∧
    (∀ c : ℚ, 0 < c →
       classifyLandmarks (scaleLm c twoFingersFixture) = "Two_Fingers") := by
  have hfix : classifyLandmarks twoFingersFixture = "Two_Fingers" := by
    have h0 : twoFingersFixture 0 = ⟨0, 0⟩ := rfl
    have h4 : twoFingersFixture 4 = ⟨1, 0⟩ := rfl
    have h8 : twoFingersFixture 8 = ⟨0, 2⟩ := rfl
    have h9 : twoFingersFixture 9 = ⟨0, 1⟩ := rfl
    have h12 : twoFingersFixture 12 = ⟨1/2, 2⟩ := rfl
    have h16 : twoFingersFixture 16 = ⟨0, 1/2⟩ := rfl
    have h20 : twoFingersFixture 20 = ⟨1/2, 1/2⟩ := rfl
    norm_num [classifyLandmarks, h0, h4, h8, h9, h12, h16, h20, sqDist]
  have hmain : ∀ (lm : Fin 21 → Pt) (c : ℚ), 0 < c →
      classifyLandmarks (scaleLm c lm) = classifyLandmarks lm := by
    intro lm c hc
    have hc2 : (0 : ℚ) < c ^ 2 := by positivity
    simp only [classifyLandmarks, sqDist_scaleLm, mul_assoc,
      mul_lt_mul_left hc2]
  exact ⟨hmain, fun c hc => (hmain twoFingersFixture c hc).trans hfix⟩

/-- Claim C5 witness: the fixture still classifies as `Two_Fingers`
when every coordinate is doubled. -/
theorem claim5_scaleInvariance_witness :
    classifyLandmarks (scaleLm 2 twoFingersFixture) = "Two_Fingers" :=
  claim5_scaleInvariance.2 2 (by norm_num)

/-- NaN on the left of any embedded arithmetic yields NaN. -/
theorem nbin_none_left (f : ℚ → ℚ → ℚ) (b : QN) : nbin f none b = none := rfl

/-- NaN on the right of any embedded arithmetic yields NaN. -/
theorem nbin_none_right (f : ℚ → ℚ → ℚ) (a : QN) : nbin f a none = none := by
  cases a <;> rfl

/-- Any comparison with NaN on the left is `false`. -/
theorem ncmp_none_left (f : ℚ → ℚ → Bool) (b : QN) : ncmp f none b = false := rfl

/-- Any comparison with NaN on the right is `false`. -/
theorem ncmp_none_right (f : ℚ → ℚ → Bool) (a : QN) : ncmp f a none = false := by
  cases a <;> rfl

/-- A NaN wrist x-coordinate contaminates the palm size and every
finger distance, so every rule's positive conditions are `false` and
the classifier falls through to `None`. -/
theorem classifyNaN_wristNaN (t i m r p mcp : NPt) (wy : QN) :
    classifyNaN t i m r p ⟨none, wy⟩ mcp = "None" := by
  simp [classifyNaN, sqDistN, nbin_none_left, nbin_none_right,
    ncmp_none_left, ncmp_none_right]

/-- Claim C8 counterexample: a one-point keypoint list makes the
classifier fault (the JS code reads a property of `undefined`), not
return `None`; and a 21-point hand whose only NaN is the ring tip
classifies as `Two_Fingers`, not `None` (the NaN only feeds the negated
`isRingExtended` condition). -/
theorem claim8_malformedInput_cex :
    classifyChecked [⟨some 0, some 0⟩] =
      Except.error "TypeError: cannot read properties of undefined" ∧
    classifyChecked nanRingFixture = Except.ok "Two_Fingers" := by
  constructor
  · rfl
  · norm_num [classifyChecked, nanRingFixture, classifyNaN, sqDistN, nbin, ncmp]

/-- Claim C8 amended: with all 21 landmarks present the classifier
never faults, whatever NaN coordinates it is given; and a NaN in a
positively-required coordinate — here the wrist — yields `None`.
(A list missing a read index faults instead of returning `None`, and a
NaN confined to a negated condition can still produce a label, per the
counterexample.) -/
theorem claim8_amended_failClosed :
    (∀ l : List NPt, 21 ≤ l.length → (classifyChecked l).isOk = true) ∧
    (∀ l : List NPt, 21 ≤ l.length → l[0]? = some ⟨none, none⟩ →
       classifyChecked l = Except.ok "None") := by
  constructor
  · intro l hl
    have h4 := List.getElem?_eq_getElem (show 4 < l.length by omega)
    have h8 := List.getElem?_eq_getElem (show 8 < l.length by omega)
    have h12 := List.getElem?_eq_getElem (show 12 < l.length by omega)
    have h16 := List.getElem?_eq_getElem (show 16 < l.length by omega)
    have h20 := List.getElem?_eq_getElem (show 20 < l.length by omega)
    have h0 := List.getElem?_eq_getElem (show 0 < l.length by omega)
    have h9 := List.getElem?_eq_getElem (show 9 < l.length by omega)
    simp [classifyChecked, h4, h8, h12, h16, h20, h0, h9, Except.isOk,
      Except.toBool]
  · intro l hl hw
    have h4 := List.getElem?_eq_getElem (show 4 < l.length by omega)
    have h8 := List.getElem?_eq_getElem (show 8 < l.length by omega)
    have h12 := List.getElem?_eq_getElem (show 12 < l.length by omega)
    have h16 := List.getElem?_eq_getElem (show 16 < l.length by omega)
    have h20 := List.getElem?_eq_getElem (show 20 < l.length by omega)
    have h9 := List.getElem?_eq_getElem (show 9 < l.length by omega)
    simp [classifyChecked, h4, h8, h12, h16, h20, hw, h9, classifyNaN_wristNaN]

/-- Claim C8 amended witness: the all-NaN 21-point hand neither faults
nor classifies, returning `None`. -/
theorem claim8_amended_failClosed_witness :
    (classifyChecked allNaNHand).isOk = true ∧
    classifyChecked allNaNHand = Except.ok "None" :=
  ⟨claim8_amended_failClosed.1 allNaNHand (by decide),
   claim8_amended_failClosed.2 allNaNHand (by decide) (by rfl)⟩

end AutoCam
